import Mathlib

/-!
# OpenClaw Voice Bridge — verification of the proxy-server core

Shallow embedding of the voice-bridge proxy server:
* `src/server/src/filters.ts` — transcript noise/hallucination filter,
* `src/server/src/gateway.ts` — gateway client event handling and run accumulators,
* `src/archive/server-node/src/index.ts` — per-connection session manager
  (auth gate, rate limiting, the audio-turn pipeline, error sanitisation,
  text cleaning for speech, close-time cleanup).

JavaScript strings are modelled as `String`/`List Char`; `Map`s as
association lists; asynchronous adapter calls as explicit outcome values
threaded through a per-turn environment.
-/

namespace OpenClaw

/-! ## JavaScript character-class helpers

`jsWs` is the JavaScript `\s` class (also the set removed by
`String.prototype.trim`): space, tab, LF, VT, FF, CR, NBSP, Ogham space,
the U+2000–U+200A range, LS, PS, NNBSP, MMSP, ideographic space, BOM. -/

def jsWs (c : Char) : Bool :=
  c = ' ' || c = '\t' || c = '\n' || c.toNat = 11 || c.toNat = 12 ||
  c = '\r' || c.toNat = 0xa0 || c.toNat = 0x1680 ||
  (0x2000 ≤ c.toNat && c.toNat ≤ 0x200a) ||
  c.toNat = 0x2028 || c.toNat = 0x2029 || c.toNat = 0x202f ||
  c.toNat = 0x205f || c.toNat = 0x3000 || c.toNat = 0xfeff

/-- JavaScript line terminators (where a multiline `^` can match after). -/
def lineTerm (c : Char) : Bool :=
  c = '\n' || c = '\r' || c.toNat = 0x2028 || c.toNat = 0x2029

/-- `String.prototype.trim`: strip `jsWs` from both ends. -/
def jsTrim (cs : List Char) : List Char :=
  ((cs.dropWhile jsWs).reverse.dropWhile jsWs).reverse

/-- Does `cs` start with the literal characters of `lit`? -/
def startsWithLit (lit : List Char) (cs : List Char) : Bool :=
  match lit, cs with
  | [], _ => true
  | _ :: _, [] => false
  | l :: ls, c :: cs => l = c && startsWithLit ls cs

/-- Strip a literal from the front, returning the rest on success. -/
def stripLit (lit : List Char) (cs : List Char) : Option (List Char) :=
  match lit, cs with
  | [], rest => some rest
  | _ :: _, [] => none
  | l :: ls, c :: cs => if l = c then stripLit ls cs else none

/-- `\s*` — greedily drop whitespace. -/
def dropWsStar (cs : List Char) : List Char := cs.dropWhile jsWs

/-- `\s+` — at least one whitespace char, greedily consumed. -/
def dropWsPlus (cs : List Char) : Option (List Char) :=
  match cs with
  | c :: r => if jsWs c then some (r.dropWhile jsWs) else none
  | [] => none

/-! ## `filters.ts` — hallucination patterns

Each `halluN` mirrors the N-th regex of `HALLUCINATION_PATTERNS`.
All the `/i` patterns are evaluated on the lower-cased input. -/

/-- `/^thanks?\s*(you)?\s*(for\s+watching)?$/i` (full match). -/
def hallu1 (cs : List Char) : Bool :=
  match stripLit "thank".toList cs with
  | none => false
  | some r0 =>
    let r1 := match r0 with | 's' :: r => r | _ => r0
    let r2 := dropWsStar r1
    let r3 := match stripLit "you".toList r2 with | some r => r | none => r2
    let r4 := dropWsStar r3
    let afterFor : Option (List Char) :=
      match stripLit "for".toList r4 with
      | some rf =>
        match dropWsPlus rf with
        | some rf2 => stripLit "watching".toList rf2
        | none => none
      | none => none
    match afterFor with
    | some r => r.isEmpty
    | none => r4.isEmpty

/-- `/^(please\s+)?subscribe/i` (anchored at the start only). -/
def hallu2 (cs : List Char) : Bool :=
  (match stripLit "please".toList cs with
   | some rp =>
     match dropWsPlus rp with
     | some rp2 => startsWithLit "subscribe".toList rp2
     | none => false
   | none => false) ||
  startsWithLit "subscribe".toList cs

/-- `/^like\s+and\s+subscribe/i` (anchored at the start only). -/
def hallu3 (cs : List Char) : Bool :=
  match stripLit "like".toList cs with
  | none => false
  | some r1 =>
    match dropWsPlus r1 with
    | none => false
    | some r2 =>
      match stripLit "and".toList r2 with
      | none => false
      | some r3 =>
        match dropWsPlus r3 with
        | none => false
        | some r4 => startsWithLit "subscribe".toList r4

/-- `/^see\s+you\s+(next\s+time|later|soon)/i` (anchored at the start only). -/
def hallu4 (cs : List Char) : Bool :=
  match stripLit "see".toList cs with
  | none => false
  | some r1 =>
    match dropWsPlus r1 with
    | none => false
    | some r2 =>
      match stripLit "you".toList r2 with
      | none => false
      | some r3 =>
        match dropWsPlus r3 with
        | none => false
        | some r4 =>
          (match stripLit "next".toList r4 with
           | some rn =>
             match dropWsPlus rn with
             | some rn2 => (stripLit "time".toList rn2).isSome
             | none => false
           | none => false) ||
          (stripLit "later".toList r4).isSome ||
          (stripLit "soon".toList r4).isSome

/-- `/^bye+$/i` (full match). -/
def hallu5 (cs : List Char) : Bool :=
  match stripLit "by".toList cs with
  | none => false
  | some r =>
    let es := r.takeWhile (fun c => c = 'e')
    !es.isEmpty && (r.drop es.length).isEmpty

/-- `/^(uh+|um+|hmm+)$/i` (full match). -/
def hallu6 (cs : List Char) : Bool :=
  (match cs with
   | 'u' :: r =>
     let hs := r.takeWhile (fun c => c = 'h')
     let ms := r.takeWhile (fun c => c = 'm')
     (!hs.isEmpty && (r.drop hs.length).isEmpty) ||
     (!ms.isEmpty && (r.drop ms.length).isEmpty)
   | _ => false) ||
  (match cs with
   | 'h' :: 'm' :: r =>
     let ms := r.takeWhile (fun c => c = 'm')
     !ms.isEmpty && (r.drop ms.length).isEmpty
   | _ => false)

/-- `/^\.+$/` (full match, not case-insensitive — irrelevant for `.`). -/
def hallu7 (cs : List Char) : Bool :=
  !cs.isEmpty && cs.all (fun c => c = '.')

/-- `transcript.trim().replace(/[.!?,]/g, '')` — the normalisation both
`isHallucination` and `isTooShort` apply before testing. -/
def normalizeTranscript (cs : List Char) : List Char :=
  (jsTrim cs).filter (fun c => !(c = '.' || c = '!' || c = '?' || c = ','))

/-- `isHallucination` from `filters.ts`: normalise, then test the pattern
list (case-insensitively, hence the lower-casing). -/
def isHallucination (cs : List Char) : Bool :=
  let n := (normalizeTranscript cs).map Char.toLower
  hallu1 n || hallu2 n || hallu3 n || hallu4 n || hallu5 n || hallu6 n ||
  hallu7 ((normalizeTranscript cs))

/-- `MIN_TRANSCRIPT_LENGTH` from `filters.ts`. -/
def MIN_TRANSCRIPT_LENGTH : Nat := 2

/-- `isTooShort` from `filters.ts`. -/
def isTooShort (cs : List Char) : Bool :=
  (normalizeTranscript cs).length < MIN_TRANSCRIPT_LENGTH

/-- Filter reasons (the string literals of `FilterResult.reason`). -/
inductive FilterReason where
  | hallucination
  | noise
  | empty
  deriving DecidableEq, Repr

/-- `FilterResult` from `filters.ts`. -/
structure FilterResult where
  filtered : Bool
  reason : Option FilterReason := none
  deriving DecidableEq, Repr

/-- `shouldFilter` from `filters.ts`: empty, then too-short, then
hallucination — first match wins. -/
def shouldFilter (transcript : String) : FilterResult :=
  let trimmed := jsTrim transcript.toList
  if trimmed.isEmpty then ⟨true, some .empty⟩
  else if isTooShort trimmed then ⟨true, some .noise⟩
  else if isHallucination trimmed then ⟨true, some .hallucination⟩
  else ⟨false, none⟩


/-! ## `index.ts` — the `spokenText` cleaning chain (lines 253–272)

Each `replX` mirrors one `.replace(...)` in order.  JavaScript
`String.replace` with a `/g` (or `/gm`) regex scans the input left to
right, at each position tries the pattern (with `^` of `/m` matching only
at the start of a line), emits the replacement on a match and resumes
after it, else copies one character; the scanners below do exactly that.
Fuel is the length of the input; every match consumes at least one input
character, so the fuel never runs out on the initial call. -/

/-- `/^>\s*🎤?\s*"[^"]*"\n*/gm` — try the match at a line start; on
success return the rest together with whether the last consumed char was
a newline (so the caller knows whether the next position starts a line). -/
def matchEcho (cs : List Char) : Option (List Char × Bool) :=
  match cs with
  | '>' :: rest =>
    let r1 := rest.dropWhile jsWs
    let r2 := match r1 with | '🎤' :: r => r | _ => r1
    let r3 := r2.dropWhile jsWs
    match r3 with
    | '"' :: r4 =>
      let r5 := r4.dropWhile (fun c => c ≠ '"')
      match r5 with
      | '"' :: r6 =>
        match r6 with
        | '\n' :: _ => some (r6.dropWhile (fun c => c = '\n'), true)
        | _ => some (r6, false)
      | _ => none
    | _ => none
  | _ => none

def replEchoGo : Nat → Bool → List Char → List Char
  | 0, _, cs => cs
  | _ + 1, _, [] => []
  | fuel + 1, atStart, c :: cs =>
    if atStart then
      match matchEcho (c :: cs) with
      | some (rest, nl) => replEchoGo fuel nl rest
      | none => c :: replEchoGo fuel (lineTerm c) cs
    else
      c :: replEchoGo fuel (lineTerm c) cs

/-- Three backquotes ahead? (U+0060 written numerically). -/
def startsFence (cs : List Char) : Bool :=
  match cs with
  | a :: b :: c :: _ => a.toNat = 96 && b.toNat = 96 && c.toNat = 96
  | _ => false

/-- Find the earliest closing fence, returning the rest after it
(the lazy `[\s\S]*?` of the code-fence regex). -/
def findFenceClose : Nat → List Char → Option (List Char)
  | 0, _ => none
  | _ + 1, [] => none
  | fuel + 1, c :: rest =>
    if startsFence (c :: rest) then some (rest.drop 2)
    else findFenceClose fuel rest

/-- ``/```[\s\S]*?```/g`` → `' (code block omitted) '`. -/
def replFencesGo : Nat → List Char → List Char
  | 0, cs => cs
  | _ + 1, [] => []
  | fuel + 1, c :: cs =>
    if startsFence (c :: cs) then
      let rest := cs.drop 2
      match findFenceClose rest.length rest with
      | some rest2 => " (code block omitted) ".toList ++ replFencesGo fuel rest2
      | none => c :: replFencesGo fuel cs
    else c :: replFencesGo fuel cs

/-- Index of the last `|` in the line segment after an opening `|`, if it
leaves at least one char in between (greedy `[^\n]+` backtracking). -/
def lastBarIdx (seg : List Char) : Option Nat :=
  match seg.reverse.findIdx? (fun c => c = '|') with
  | some j =>
    let k := seg.length - 1 - j
    if 1 ≤ k then some k else none
  | none => none

/-- `/\|[^\n]+\|/g` → `''` (table rows). -/
def replTablesGo : Nat → List Char → List Char
  | 0, cs => cs
  | _ + 1, [] => []
  | fuel + 1, c :: cs =>
    if c = '|' then
      let seg := cs.takeWhile (fun d => d ≠ '\n')
      let tl := cs.drop seg.length
      match lastBarIdx seg with
      | some k => replTablesGo fuel (seg.drop (k + 1) ++ tl)
      | none => c :: replTablesGo fuel cs
    else c :: replTablesGo fuel cs

/-- `/\[([^\]]+)\]\(([^)]+)\)/g` → `'$1'` (keep the link text). -/
def replLinksGo : Nat → List Char → List Char
  | 0, cs => cs
  | _ + 1, [] => []
  | fuel + 1, c :: cs =>
    if c = '[' then
      let txt := cs.takeWhile (fun d => d ≠ ']')
      match cs.drop txt.length with
      | ']' :: '(' :: r2 =>
        let url := r2.takeWhile (fun d => d ≠ ')')
        match r2.drop url.length with
        | ')' :: r4 =>
          if !txt.isEmpty && !url.isEmpty then txt ++ replLinksGo fuel r4
          else c :: replLinksGo fuel cs
        | _ => c :: replLinksGo fuel cs
      | _ => c :: replLinksGo fuel cs
    else c :: replLinksGo fuel cs

/-- One attempt of `/https?:\/\/\S+/` at the current position. -/
def matchUrl (cs : List Char) : Option (List Char) :=
  let after : Option (List Char) :=
    match stripLit "http".toList cs with
    | none => none
    | some r =>
      let r1 := match r with | 's' :: rr => rr | _ => r
      stripLit "://".toList r1
  match after with
  | none => none
  | some r2 =>
    let run := r2.takeWhile (fun d => !jsWs d)
    if run.isEmpty then none else some (r2.drop run.length)

/-- `/https?:\/\/\S+/g` → `''` (raw URLs). -/
def replUrlsGo : Nat → List Char → List Char
  | 0, cs => cs
  | _ + 1, [] => []
  | fuel + 1, c :: cs =>
    match matchUrl (c :: cs) with
    | some rest => replUrlsGo fuel rest
    | none => c :: replUrlsGo fuel cs

/-- `/\*\*([^*]+)\*\*/g` → `'$1'` (bold). -/
def replBoldGo : Nat → List Char → List Char
  | 0, cs => cs
  | _ + 1, [] => []
  | fuel + 1, c :: cs =>
    match c :: cs with
    | '*' :: '*' :: r =>
      let inner := r.takeWhile (fun d => d ≠ '*')
      match r.drop inner.length with
      | '*' :: '*' :: r2 =>
        if !inner.isEmpty then inner ++ replBoldGo fuel r2
        else c :: replBoldGo fuel cs
      | _ => c :: replBoldGo fuel cs
    | _ => c :: replBoldGo fuel cs

/-- Single-delimiter `$1` rewrites: `/\*([^*]+)\*/g` (italics) and the
backquote inline-code rule, both replaced by the inner text. -/
def replDelimGo (delim : Char) : Nat → List Char → List Char
  | 0, cs => cs
  | _ + 1, [] => []
  | fuel + 1, c :: cs =>
    if c = delim then
      let inner := cs.takeWhile (fun d => d ≠ delim)
      match cs.drop inner.length with
      | d :: r2 =>
        if d = delim && !inner.isEmpty then inner ++ replDelimGo delim fuel r2
        else c :: replDelimGo delim fuel cs
      | [] => c :: replDelimGo delim fuel cs
    else c :: replDelimGo delim fuel cs

/-- `/#{1,6}\s*/g` → `''` (heading markers, up to six hashes then
optional whitespace). -/
def replHeadersGo : Nat → List Char → List Char
  | 0, cs => cs
  | _ + 1, [] => []
  | fuel + 1, c :: cs =>
    if c = '#' then
      let hashes := (c :: cs).takeWhile (fun d => d = '#')
      let k := min hashes.length 6
      replHeadersGo fuel (((c :: cs).drop k).dropWhile jsWs)
    else c :: replHeadersGo fuel cs

/-- `/^[-*]\s+/gm` → `''` (list bullets at a line start). -/
def replBulletsGo : Nat → Bool → List Char → List Char
  | 0, _, cs => cs
  | _ + 1, _, [] => []
  | fuel + 1, atStart, c :: cs =>
    if atStart && (c = '-' || c = '*') then
      let run := cs.takeWhile jsWs
      match run.getLast? with
      | some last => replBulletsGo fuel (lineTerm last) (cs.drop run.length)
      | none => c :: replBulletsGo fuel (lineTerm c) cs
    else c :: replBulletsGo fuel (lineTerm c) cs

/-- `/^\d+\.\s+/gm` → `''` (numbered-list markers at a line start). -/
def replNumberedGo : Nat → Bool → List Char → List Char
  | 0, _, cs => cs
  | _ + 1, _, [] => []
  | fuel + 1, atStart, c :: cs =>
    if atStart && c.isDigit then
      let ds := cs.takeWhile Char.isDigit
      match cs.drop ds.length with
      | '.' :: r2 =>
        let run := r2.takeWhile jsWs
        match run.getLast? with
        | some last => replNumberedGo fuel (lineTerm last) (r2.drop run.length)
        | none => c :: replNumberedGo fuel (lineTerm c) cs
      | _ => c :: replNumberedGo fuel (lineTerm c) cs
    else c :: replNumberedGo fuel (lineTerm c) cs

def inRange (lo hi : Nat) (c : Char) : Bool := lo ≤ c.toNat && c.toNat ≤ hi

/-- `/[\u{1F300}-\u{1F9FF}]/gu` → `''`. -/
def replEmoji1 (cs : List Char) : List Char :=
  cs.filter (fun c => !inRange 0x1F300 0x1F9FF c)

/-- `/[\u{2600}-\u{26FF}]/gu` → `''`. -/
def replEmoji2 (cs : List Char) : List Char :=
  cs.filter (fun c => !inRange 0x2600 0x26FF c)

/-- `/[\u{2700}-\u{27BF}]/gu` → `''`. -/
def replEmoji3 (cs : List Char) : List Char :=
  cs.filter (fun c => !inRange 0x2700 0x27BF c)

/-- `/[\u{FE00}-\u{FE0F}]/gu` → `''`. -/
def replVariation (cs : List Char) : List Char :=
  cs.filter (fun c => !inRange 0xFE00 0xFE0F c)

/-- `/[\u{200D}]/gu` → `''`. -/
def replZwj (cs : List Char) : List Char :=
  cs.filter (fun c => c.toNat ≠ 0x200D)

/-- `/\n{2,}/g` → `'. '` (multiple newlines become a spoken pause). -/
def replMultiNlGo : Nat → List Char → List Char
  | 0, cs => cs
  | _ + 1, [] => []
  | fuel + 1, c :: cs =>
    if c = '\n' then
      let run := cs.takeWhile (fun d => d = '\n')
      if run.isEmpty then c :: replMultiNlGo fuel cs
      else '.' :: ' ' :: replMultiNlGo fuel (cs.drop run.length)
    else c :: replMultiNlGo fuel cs

/-- The whole `spokenText` chain from `handleAudioMessage`
(`index.ts` lines 253–272), ending with `.trim()`. -/
def cleanForSpeech (s : String) : String :=
  let cs0 := s.toList
  let cs1 := replEchoGo cs0.length true cs0
  let cs2 := replFencesGo cs1.length cs1
  let cs3 := replTablesGo cs2.length cs2
  let cs4 := replLinksGo cs3.length cs3
  let cs5 := replUrlsGo cs4.length cs4
  let cs6 := replBoldGo cs5.length cs5
  let cs7 := replDelimGo '*' cs6.length cs6
  let cs8 := replDelimGo (Char.ofNat 96) cs7.length cs7
  let cs9 := replHeadersGo cs8.length cs8
  let cs10 := replBulletsGo cs9.length true cs9
  let cs11 := replNumberedGo cs10.length true cs10
  let cs12 := replZwj (replVariation (replEmoji3 (replEmoji2 (replEmoji1 cs11))))
  let cs13 := replMultiNlGo cs12.length cs12
  let cs14 := cs13.map (fun c => if c = '\n' then ' ' else c)
  String.mk (jsTrim cs14)


/-! ## `index.ts` — error sanitisation (`getSafeErrorMessage`) -/

/-- JavaScript `hay.includes(needle)` on char lists. -/
def strIncludes (hay needle : List Char) : Bool :=
  match hay with
  | [] => needle.isEmpty
  | _ :: t => startsWithLit needle hay || strIncludes t needle

/-- `getSafeErrorMessage` from `index.ts` (lines 314–336), on the
`err.message` string of the caught `Error`. -/
def getSafeErrorMessage (msg : String) : String :=
  let m := msg.toList.map Char.toLower
  if strIncludes m "timeout".toList then
    "Request timed out. Please try again."
  else if strIncludes m "gateway".toList || strIncludes m "not connected".toList then
    "Service temporarily unavailable. Please try again."
  else if strIncludes m "transcri".toList then
    "Failed to process audio. Please try again."
  else if strIncludes m "tts".toList || strIncludes m "speech".toList then
    "Voice synthesis failed. Response is text-only."
  else
    "An error occurred. Please try again."

/-- The fixed set of user-safe error strings `getSafeErrorMessage` can
return for a caught `Error`. -/
def safeMessages : List String :=
  ["Request timed out. Please try again.",
   "Service temporarily unavailable. Please try again.",
   "Failed to process audio. Please try again.",
   "Voice synthesis failed. Response is text-only.",
   "An error occurred. Please try again."]

/-! ## `index.ts` — server frames and the audio-turn pipeline -/

inductive StatusState where
  | transcribing
  | thinking
  | speaking
  deriving DecidableEq, Repr

/-- A server → client frame (`ServerMessage` in `types.ts`). -/
inductive Frame where
  | transcript (text : String)
  | response (text : String)
  | audio (data : String)
  | audioEnd
  | error (message : String)
  | pong
  | status (s : StatusState)
  deriving DecidableEq, Repr

/-- `GatewayResponse` from `gateway.ts`. -/
structure GatewayResponse where
  text : String
  mediaUrls : Option (List String) := none
  deriving DecidableEq, Repr

/-- Outcomes of the asynchronous collaborators of one audio turn:
the transcription adapter, the gateway round trip (with the number of
15-second keepalive ticks that fired while waiting), the TTS stream
(chunks delivered before an optional provider failure), and the
`readFile` of a gateway-produced media file.  Errors carry the internal
`Error.message`. -/
structure TurnEnv where
  transcribeResult : Except String String
  gatewayResult : Except String GatewayResponse
  waitTicks : Nat := 0
  ttsChunks : List String := []
  ttsFailure : Option String := none
  mediaRead : Except Unit String := .error ()
  deriving Repr

/-- `handleAudioMessage` from `index.ts` (lines 196–309): the frames one
audio turn emits, in order, as a function of the collaborator outcomes. -/
def handleAudioMessage (env : TurnEnv) : List Frame :=
  Frame.status .transcribing ::
  match env.transcribeResult with
  | .error e => [Frame.error (getSafeErrorMessage e), Frame.audioEnd]
  | .ok transcript =>
    if (shouldFilter transcript).filtered then [Frame.audioEnd]
    else
      Frame.transcript transcript :: Frame.status .thinking ::
      (List.replicate env.waitTicks (Frame.status .thinking) ++
       match env.gatewayResult with
       | .error e => [Frame.error (getSafeErrorMessage e), Frame.audioEnd]
       | .ok resp =>
         let displayText := if resp.text = "" then "(audio response)" else resp.text
         Frame.response displayText :: Frame.status .speaking ::
         (if resp.text ≠ "" then
            if cleanForSpeech resp.text ≠ "" then
              env.ttsChunks.map Frame.audio ++
              (match env.ttsFailure with
               | some e => [Frame.error (getSafeErrorMessage e), Frame.audioEnd]
               | none => [Frame.audioEnd])
            else [Frame.audioEnd]
          else
            match resp.mediaUrls with
            | some (_ :: _) =>
              (match env.mediaRead with
               | .ok data => [Frame.audio data, Frame.audioEnd]
               | .error _ => [Frame.audioEnd])
            | _ => [Frame.audioEnd]))

/-! ## `index.ts` — rate limiting and the authenticated `audio` case -/

def RATE_LIMIT_REQUESTS : Nat := 20
def RATE_LIMIT_WINDOW_MS : Nat := 60000
def MAX_AUDIO_SIZE : Nat := 10 * 1024 * 1024

structure RateLimit where
  count : Nat
  resetAt : Nat
  deriving DecidableEq, Repr

/-- `checkRateLimit` from `index.ts` (lines 364–379): the per-connection
fixed window.  Returns whether the request is allowed and the connection's
updated window entry. -/
def checkRateLimit (st : Option RateLimit) (now : Nat) : Bool × Option RateLimit :=
  let limit : RateLimit :=
    match st with
    | none => ⟨0, now + RATE_LIMIT_WINDOW_MS⟩
    | some l => if now > l.resetAt then ⟨0, now + RATE_LIMIT_WINDOW_MS⟩ else l
  if limit.count ≥ RATE_LIMIT_REQUESTS then (false, st)
  else (true, some ⟨limit.count + 1, limit.resetAt⟩)

structure AudioCaseResult where
  frames : List Frame
  rate : Option RateLimit
  transcribeInvoked : Bool
  deriving Repr

/-- The `case 'audio'` arm of the authenticated message switch
(`index.ts` lines 424–441): rate limit, then size check, then the turn
pipeline.  `transcribeInvoked` records whether `handleAudioMessage` (and
hence the transcription adapter) was reached. -/
def audioCase (rate : Option RateLimit) (now : Nat) (dataSize : Nat)
    (env : TurnEnv) : AudioCaseResult :=
  let r := checkRateLimit rate now
  if !r.1 then
    ⟨[.error "Rate limit exceeded. Please wait.", .audioEnd], r.2, false⟩
  else if dataSize > MAX_AUDIO_SIZE then
    ⟨[.error "Audio data too large", .audioEnd], r.2, false⟩
  else
    ⟨handleAudioMessage env, r.2, true⟩

/-! ## `index.ts` — per-connection auth gate and message dispatch -/

structure ServerConfig where
  authToken : String

inductive ClientMsg where
  | auth (token : String)
  | audio (dataSize : Nat) (env : TurnEnv) (now : Nat)
  | ping
  | ttsState (enabled : Bool)
  | unknown
  | malformed

/-- One stimulus on a connection: a (possibly unparsable) client message,
or the 10-second auth timer firing. -/
inductive ConnEvent where
  | msg (m : ClientMsg)
  | authTimerFire

structure ConnState where
  authed : Bool
  ttsEnabled : Bool
  rate : Option RateLimit
  isOpen : Bool
  authTimerActive : Bool

/-- State set up in `wss.on('connection')`. -/
def initConnState : ConnState :=
  { authed := false, ttsEnabled := true, rate := none,
    isOpen := true, authTimerActive := true }

def isAuthMsg : ClientMsg → Bool
  | .auth _ => true
  | _ => false

/-- The `ws.on('message')` handler plus the auth-timeout callback
(`index.ts` lines 389–466): returns the new connection state and the
frames sent.  `isOpen := false` models `ws.close()`. -/
def handleConnEvent (cfg : ServerConfig) (st : ConnState) (ev : ConnEvent) :
    ConnState × List Frame :=
  match ev with
  | .authTimerFire =>
    if st.authTimerActive && !st.authed then
      ({ st with isOpen := false, authTimerActive := false },
       [Frame.error "Authentication timeout"])
    else ({ st with authTimerActive := false }, [])
  | .msg .malformed => (st, [Frame.error "Failed to process message"])
  | .msg m =>
    if !st.authed then
      match m with
      | .auth token =>
        if token = cfg.authToken then
          ({ st with authed := true, authTimerActive := false },
           [Frame.status .transcribing])
        else ({ st with isOpen := false }, [Frame.error "Invalid token"])
      | _ => (st, [Frame.error "Not authenticated"])
    else
      match m with
      | .audio dataSize env now =>
        let r := audioCase st.rate now dataSize env
        ({ st with rate := r.rate }, r.frames)
      | .ping => (st, [Frame.pong])
      | .ttsState b => ({ st with ttsEnabled := b }, [])
      | .auth _ => (st, [])
      | _ => (st, [])

/-! ## Association-list model of the gateway client's `Map`s -/

def mget {α : Type} (m : List (String × α)) (k : String) : Option α :=
  (m.find? (fun p => p.1 = k)).map (fun p => p.2)

def mset {α : Type} (m : List (String × α)) (k : String) (v : α) :
    List (String × α) :=
  match m with
  | [] => [(k, v)]
  | p :: rest => if p.1 = k then (k, v) :: rest else p :: mset rest k v

def mdel {α : Type} (m : List (String × α)) (k : String) : List (String × α) :=
  m.filter (fun p => p.1 ≠ k)

/-! ## `gateway.ts` — event handling and run accumulators -/

/-- The fields of an `agent` event payload the handler reads. -/
structure AgentPayload where
  runId : Option String := none
  sessionKey : Option String := none
  stream : Option String := none
  text : Option String := none
  mediaUrls : Option (List String) := none
  deriving Repr

structure ChatContentItem where
  ctype : String
  text : Option String := none
  deriving Repr

structure ChatMessage where
  role : Option String := none
  content : Option (List ChatContentItem) := none
  deriving Repr

/-- The fields of a `chat` event payload the handler reads. -/
structure ChatPayload where
  runId : Option String := none
  sessionKey : Option String := none
  state : Option String := none
  message : Option ChatMessage := none
  deriving Repr

/-- The mutable accumulators of `GatewayClient`. -/
structure GwState where
  responseBuffer : List (String × String) := []
  mediaUrlsBuffer : List (String × List String) := []

def initGwState : GwState := {}

/-- The `expectedKeys` list both handlers build: the configured session
key and its `agent:main:`-prefixed form (the upstream quirk). -/
def expectedKeys (ck : String) : List String := [ck, "agent:main:" ++ ck]

/-- `p.runId || 'unknown'` (JS falsy: absent or empty). -/
def effectiveRunId (runId : Option String) : String :=
  match runId with
  | some r => if r = "" then "unknown" else r
  | none => "unknown"

/-- The session-key filter both handlers apply:
`expectedKeys.includes(p.sessionKey || '')`. -/
def matchedKey (ck : String) (key : Option String) : Bool :=
  (expectedKeys ck).contains (key.getD "")

/-- The `if (p.data?.text)` block of `handleAgentEvent`: keep the longest
text per run id. -/
def agentTextStep (runId : String) (st : GwState) (text : Option String) :
    GwState :=
  match text with
  | some t =>
    if t ≠ "" then
      let prev := (mget st.responseBuffer runId).getD ""
      if prev.length < t.length then
        { st with responseBuffer := mset st.responseBuffer runId t }
      else st
    else st
  | none => st

/-- The `if (p.data?.mediaUrls ...)` block of `handleAgentEvent`: keep the
last complete `.mp3` list per run id. -/
def agentMediaStep (runId : String) (st : GwState)
    (mediaUrls : Option (List String)) : GwState :=
  match mediaUrls with
  | some urls =>
    if !urls.isEmpty then
      let mp3Urls := urls.filter (fun u => u.endsWith ".mp3")
      if !mp3Urls.isEmpty then
        { st with mediaUrlsBuffer := mset st.mediaUrlsBuffer runId mp3Urls }
      else st
    else st
  | none => st

/-- `handleAgentEvent` from `gateway.ts` (lines 199–241).  Agent events
never call `onResponse`; they only update the two buffers. -/
def handleAgentEvent (ck : String) (st : GwState) (p : AgentPayload) : GwState :=
  if !matchedKey ck p.sessionKey then st
  else if p.stream ≠ some "assistant" then st
  else
    let runId := effectiveRunId p.runId
    agentMediaStep runId (agentTextStep runId st p.text) p.mediaUrls

/-- `content.filter(c => c.type === 'text' && c.text).map(c => c.text || '')`. -/
def chatTextParts (content : List ChatContentItem) : List String :=
  (content.filter (fun c => c.ctype = "text" && c.text.getD "" ≠ "")).map
    (fun c => c.text.getD "")

/-- `handleChatEvent` from `gateway.ts` (lines 246–312): returns the new
state and the list of `onResponse` emissions (in order). -/
def handleChatEvent (ck : String) (st : GwState) (p : ChatPayload) :
    GwState × List GatewayResponse :=
  if !matchedKey ck p.sessionKey then (st, [])
  else
    let runId := effectiveRunId p.runId
    let firstBlock : GwState × List GatewayResponse :=
      match p.message with
      | some msg =>
        if msg.role = some "assistant" then
          match msg.content with
          | some content =>
            let textParts := chatTextParts content
            if !textParts.isEmpty then
              let fullText := String.join textParts
              let prev := (mget st.responseBuffer runId).getD ""
              let st' :=
                if prev.length < fullText.length then
                  { st with responseBuffer := mset st.responseBuffer runId fullText }
                else st
              if p.state = some "final" then
                let finalText := (mget st'.responseBuffer runId).getD fullText
                let mediaUrls := mget st'.mediaUrlsBuffer runId
                ({ responseBuffer := mdel st'.responseBuffer runId,
                   mediaUrlsBuffer := mdel st'.mediaUrlsBuffer runId },
                 [{ text := finalText, mediaUrls := mediaUrls }])
              else (st', [])
            else (st, [])
          | none => (st, [])
        else (st, [])
      | none => (st, [])
    let st1 := firstBlock.1
    if p.state = some "final" then
      let existingText := mget st1.responseBuffer runId
      let mediaUrls := mget st1.mediaUrlsBuffer runId
      let out2 :=
        if existingText.getD "" = "" && mediaUrls.isSome then
          [{ text := "", mediaUrls := mediaUrls }]
        else []
      ({ responseBuffer := mdel st1.responseBuffer runId,
         mediaUrlsBuffer := mdel st1.mediaUrlsBuffer runId },
       firstBlock.2 ++ out2)
    else (st1, firstBlock.2)

/-! ## `index.ts` — the shared FIFO pending-request queue -/

/-- A `PendingGatewayRequest`, identified by its owning connection. -/
structure Pending where
  conn : Nat
  deriving DecidableEq, Repr

/-- `initGateway`'s `onResponse` (lines 101–111), once per emission:
shift the first pending request and deliver to it; with an empty queue
the response is dropped (a warning is logged). -/
def deliverResponses (queue : List Pending) (rs : List GatewayResponse) :
    List Pending × List (Pending × GatewayResponse) :=
  match rs with
  | [] => (queue, [])
  | r :: rest =>
    match queue with
    | [] => deliverResponses [] rest
    | p :: q =>
      let step := deliverResponses q rest
      (step.1, (p, r) :: step.2)

/-- A `chat` event processed by the gateway client followed by FIFO
delivery of whatever it emitted. -/
def processChatEvent (ck : String) (st : GwState) (queue : List Pending)
    (p : ChatPayload) : GwState × List Pending × List (Pending × GatewayResponse) :=
  let r := handleChatEvent ck st p
  let d := deliverResponses queue r.2
  (r.1, d.1, d.2)

/-! ## `index.ts` — process-wide connection bookkeeping and close -/

/-- The process-wide mutable state the `ws.on('close')` handler touches:
the shared pending queue, the per-connection keepalive intervals and auth
timers, and which connections are still open (`readyState === OPEN`). -/
structure ProcState where
  pendingRequests : List Pending
  keepaliveConns : List Nat
  authTimerConns : List Nat
  openConns : List Nat

/-- `ws.on('close')` (lines 468–480): clear the auth timer, remove (and
cancel the timeout of) every pending request owned by this connection,
stop the keepalive; the socket is no longer open. -/
def closeConn (st : ProcState) (c : Nat) : ProcState :=
  { pendingRequests := st.pendingRequests.filter (fun p => p.conn ≠ c),
    keepaliveConns := st.keepaliveConns.filter (fun d => d ≠ c),
    authTimerConns := st.authTimerConns.filter (fun d => d ≠ c),
    openConns := st.openConns.filter (fun d => d ≠ c) }

/-- One gateway response arriving at `onResponse`: shift the queue head
and deliver to it, or drop the response when no request is pending. -/
def deliverOne (st : ProcState) (r : GatewayResponse) :
    ProcState × Option (Nat × GatewayResponse) :=
  match st.pendingRequests with
  | [] => (st, none)
  | p :: rest => ({ st with pendingRequests := rest }, some (p.conn, r))

/-- `sendMessage` (lines 190–194): a frame reaches connection `c` only
while its socket is open. -/
def sendMessageTo (st : ProcState) (c : Nat) (f : Frame) : Option Frame :=
  if st.openConns.contains c then some f else none

/-! ## Turn-output shape (for the ordering property) -/

/-- The frame kinds the ordering property ranges over (`status` keepalive
and progress frames and `pong` are orthogonal signalling). -/
def isTurnFrame : Frame → Bool
  | .status _ => false
  | .pong => false
  | _ => true

def turnFrames (fs : List Frame) : List Frame := fs.filter isTurnFrame

def isAudioChunk : Frame → Bool
  | .audio _ => true
  | _ => false

def isTranscriptFrame : Frame → Bool
  | .transcript _ => true
  | _ => false

def isResponseFrame : Frame → Bool
  | .response _ => true
  | _ => false

def isErrorFrame : Frame → Bool
  | .error _ => true
  | _ => false

def dropOptTranscript : List Frame → List Frame
  | [] => []
  | f :: r => if isTranscriptFrame f then r else f :: r

def dropOptResponse : List Frame → List Frame
  | [] => []
  | f :: r => if isResponseFrame f then r else f :: r

/-- `error audio_end` exactly. -/
def isErrEndPair : List Frame → Bool
  | [] => false
  | f :: rest => isErrorFrame f && rest = [Frame.audioEnd]

/-- The shape the spec sentence states:
`(transcript)? (response)? (audio)* audio_end` — or exactly
`error audio_end`. -/
def matchesClaimedShape (fs : List Frame) : Bool :=
  isErrEndPair fs ||
  ((dropOptResponse (dropOptTranscript fs)).dropWhile isAudioChunk =
    [Frame.audioEnd])

/-- The shape the code actually guarantees:
`(transcript)? (response)? (audio)* (error)? audio_end` — i.e. the turn
always ends in `audio_end`, with an optional error frame directly before
it, after whatever frames were already emitted. -/
def matchesActualShape (fs : List Frame) : Bool :=
  ((dropOptResponse (dropOptTranscript fs)).dropWhile isAudioChunk =
    [Frame.audioEnd]) ||
  isErrEndPair ((dropOptResponse (dropOptTranscript fs)).dropWhile isAudioChunk)

def countAudioEnd (fs : List Frame) : Nat :=
  fs.countP (fun f => f = Frame.audioEnd)

/-- Every `error` frame is immediately followed by `audio_end`. -/
def errorsFollowedByEnd : List Frame → Bool
  | [] => true
  | Frame.error _ :: rest =>
    match rest with
    | Frame.audioEnd :: rest2 => errorsFollowedByEnd rest2
    | _ => false
  | _ :: rest => errorsFollowedByEnd rest

/-! ## Rate-limit sequences -/

/-- Run `checkRateLimit` over a sequence of arrival times, collecting the
allow/deny verdicts. -/
def runRate (st : Option RateLimit) : List Nat → List Bool × Option RateLimit
  | [] => ([], st)
  | t :: ts =>
    let r := checkRateLimit st t
    let rest := runRate r.2 ts
    (r.1 :: rest.1, rest.2)

/-! ## Gateway event streams (for the accumulator invariant) -/

inductive GwEvent where
  | agent (p : AgentPayload)
  | chat (p : ChatPayload)

def procEvent (ck : String) (st : GwState) : GwEvent → GwState × List GatewayResponse
  | .agent p => (handleAgentEvent ck st p, [])
  | .chat p => handleChatEvent ck st p

def procEvents (ck : String) (st : GwState) : List GwEvent → GwState × List GatewayResponse
  | [] => (st, [])
  | e :: es =>
    let r := procEvent ck st e
    let rest := procEvents ck r.1 es
    (rest.1, r.2 ++ rest.2)

/-- A streamed (non-terminal) event: everything except a `chat` event
whose `state` is `'final'`. -/
def nonFinal : GwEvent → Bool
  | .agent _ => true
  | .chat p => p.state ≠ some "final"

def sessionKeyOf : GwEvent → Option String
  | .agent p => p.sessionKey
  | .chat p => p.sessionKey

/-- The assistant text a `chat` payload contributes (joined text parts),
if any. -/
def chatFullText (p : ChatPayload) : Option String :=
  match p.message with
  | some msg =>
    if msg.role = some "assistant" then
      match msg.content with
      | some content =>
        let parts := chatTextParts content
        if parts.isEmpty then none else some (String.join parts)
      | none => none
    else none
  | none => none

/-- JS truthiness on an optional text value: present and non-empty. -/
def truthyText : Option String → Option String
  | some t => if t = "" then none else some t
  | none => none

/-- The candidate text an event contributes to the accumulator of run
`runId` on a client configured with session key `ck`. -/
def eventText (ck runId : String) : GwEvent → Option String
  | .agent p =>
    if matchedKey ck p.sessionKey ∧ p.stream = some "assistant" ∧
        effectiveRunId p.runId = runId then
      truthyText p.text
    else none
  | .chat p =>
    if matchedKey ck p.sessionKey ∧ effectiveRunId p.runId = runId then
      chatFullText p
    else none

def textsOf (ck runId : String) (evts : List GwEvent) : List String :=
  evts.filterMap (eventText ck runId)

/-- Keep the stored text unless the candidate is strictly longer
(the accumulator update rule of both handlers). -/
def updLongest (cur : Option String) (t : String) : Option String :=
  if (cur.getD "").length < t.length then some t else cur

/-- Apply an optional candidate text to the stored value. -/
def stepText (cur : Option String) : Option String → Option String
  | some t => updLongest cur t
  | none => cur

/-- A sample streamed agent event for run `r` on session `A`. -/
def sampleAgentEv : GwEvent :=
  .agent { sessionKey := some "A", stream := some "assistant",
           runId := some "r", text := some "hi" }

/-- A sample streamed (non-final) chat delta for run `r` on session `A`. -/
def sampleChatEv : GwEvent :=
  .chat { sessionKey := some "A", runId := some "r", state := some "delta",
          message := some { role := some "assistant",
                            content := some [{ ctype := "text",
                                               text := some "hello" }] } }

/-! # Support lemmas -/

/-- Hallucination-pattern behaviour on further concrete transcripts. -/
theorem shouldFilter_hallucination_examples :
    shouldFilter "Thank you." = ⟨true, some .hallucination⟩ ∧
    shouldFilter "Hmm" = ⟨true, some .hallucination⟩ ∧
    shouldFilter "Bye!" = ⟨true, some .hallucination⟩ ∧
    shouldFilter "Please subscribe to my channel" = ⟨true, some .hallucination⟩ ∧
    shouldFilter "See you next time" = ⟨true, some .hallucination⟩ :=
  ⟨by decide, by decide, by decide, by decide, by decide⟩

/-- Cleaning-pipeline behaviour on concrete markdown inputs. -/
theorem cleanForSpeech_examples :
    cleanForSpeech "**bold** and *ital*" = "bold and ital" ∧
    cleanForSpeech "# Title\n\nSee [docs](https://x.io) now" = "Title. See docs now" ∧
    cleanForSpeech "|a|b|\ntext" = "text" ∧
    cleanForSpeech "a\n\n\nb" = "a. b" :=
  ⟨by decide, by decide, by decide, by decide⟩

theorem mget_mset_self {α : Type} (m : List (String × α)) (k : String) (v : α) :
    mget (mset m k v) k = some v := by
  induction m with
  | nil => simp [mget, mset]
  | cons p rest ih =>
    by_cases h : p.1 = k
    · simp [mget, mset, h]
    · simpa [mget, mset, h] using ih

theorem mget_mset_ne {α : Type} (m : List (String × α)) (k k' : String) (v : α)
    (h : k' ≠ k) : mget (mset m k v) k' = mget m k' := by
  have h' : ¬ (k = k') := fun hh => h hh.symm
  induction m with
  | nil => simp [mget, mset, h']
  | cons p rest ih =>
    obtain ⟨pk, pv⟩ := p
    by_cases hp : pk = k
    · subst hp
      simp [mget, mset, h']
    · by_cases hp' : pk = k'
      · simp [mget, mset, hp, hp', h]
      · simpa [mget, mset, hp, hp'] using ih

theorem mget_mdel_self {α : Type} (m : List (String × α)) (k : String) :
    mget (mdel m k) k = none := by
  induction m with
  | nil => simp [mget, mdel]
  | cons p rest ih =>
    by_cases h : p.1 = k
    · simp [mget, mdel, h, ih]
    · simp [mget, mdel, h, ih]

theorem filter_turn_replicate (n : Nat) (s : StatusState) :
    (List.replicate n (Frame.status s)).filter isTurnFrame = [] := by
  induction n with
  | zero => rfl
  | succ k ih => simp [List.replicate_succ, List.filter_cons, isTurnFrame, ih]

theorem filter_turn_map_audio (l : List String) :
    (l.map Frame.audio).filter isTurnFrame = l.map Frame.audio := by
  induction l with
  | nil => rfl
  | cons a t ih => simp [List.filter_cons, isTurnFrame, ih]

theorem dropWhile_map_audio (l : List String) (rest : List Frame) :
    ((l.map Frame.audio) ++ rest).dropWhile isAudioChunk =
      rest.dropWhile isAudioChunk := by
  induction l with
  | nil => rfl
  | cons a t ih => simp [List.dropWhile, isAudioChunk, ih]

theorem countAudioEnd_append (a b : List Frame) :
    countAudioEnd (a ++ b) = countAudioEnd a + countAudioEnd b := by
  simp [countAudioEnd, List.countP_append]

theorem countAudioEnd_nil : countAudioEnd [] = 0 := rfl

theorem countAudioEnd_cons (f : Frame) (l : List Frame) :
    countAudioEnd (f :: l) =
      countAudioEnd l + (if f = Frame.audioEnd then 1 else 0) := by
  simp [countAudioEnd, List.countP_cons]

theorem countAudioEnd_replicate_status (n : Nat) (s : StatusState) :
    countAudioEnd (List.replicate n (Frame.status s)) = 0 := by
  induction n with
  | zero => rfl
  | succ k ih => simp [List.replicate_succ, countAudioEnd, List.countP_cons, ih]

theorem countAudioEnd_map_audio (l : List String) :
    countAudioEnd (l.map Frame.audio) = 0 := by
  induction l with
  | nil => rfl
  | cons a t ih => simp [countAudioEnd, List.countP_cons, ih]

theorem errorsFollowedByEnd_replicate_status (n : Nat) (s : StatusState)
    (rest : List Frame) :
    errorsFollowedByEnd (List.replicate n (Frame.status s) ++ rest) =
      errorsFollowedByEnd rest := by
  induction n with
  | zero => rfl
  | succ k ih => simpa [List.replicate_succ, errorsFollowedByEnd] using ih

theorem errorsFollowedByEnd_map_audio (l : List String) (rest : List Frame) :
    errorsFollowedByEnd (l.map Frame.audio ++ rest) = errorsFollowedByEnd rest := by
  induction l with
  | nil => rfl
  | cons a t ih => simpa [errorsFollowedByEnd] using ih

theorem getSafeErrorMessage_mem (m : String) :
    getSafeErrorMessage m ∈ safeMessages := by
  simp only [getSafeErrorMessage]
  split
  · simp [safeMessages]
  · split
    · simp [safeMessages]
    · split
      · simp [safeMessages]
      · split
        · simp [safeMessages]
        · simp [safeMessages]

theorem handleAgentEvent_foreign (ck : String) (st : GwState) (p : AgentPayload)
    (h : matchedKey ck p.sessionKey = false) :
    handleAgentEvent ck st p = st := by
  simp [handleAgentEvent, h]

theorem handleChatEvent_foreign (ck : String) (st : GwState) (p : ChatPayload)
    (h : matchedKey ck p.sessionKey = false) :
    handleChatEvent ck st p = (st, []) := by
  simp [handleChatEvent, h]

theorem runRate_within (r : Nat) :
    ∀ (ts : List Nat) (c : Nat), (∀ t ∈ ts, t ≤ r) →
      c + ts.length ≤ RATE_LIMIT_REQUESTS →
      runRate (some ⟨c, r⟩) ts =
        (List.replicate ts.length true, some ⟨c + ts.length, r⟩) := by
  intro ts
  induction ts with
  | nil => intro c _ _; simp [runRate]
  | cons t ts ih =>
    intro c hts hc
    have ht : ¬ (t > r) := Nat.not_lt.mpr (hts t (by simp))
    have hcnt : ¬ (c ≥ RATE_LIMIT_REQUESTS) := by
      simp [RATE_LIMIT_REQUESTS] at hc ⊢
      omega
    have h1 : checkRateLimit (some ⟨c, r⟩) t = (true, some ⟨c + 1, r⟩) := by
      simp [checkRateLimit, ht, hcnt]
    have h2 := ih (c + 1) (fun x hx => hts x (by simp [hx]))
      (by simpa [Nat.add_assoc, Nat.add_comm 1 ts.length] using hc)
    simp [runRate, h1, h2, List.replicate_succ]
    omega

theorem handleAudio_errors_safe (env : TurnEnv) (e : String)
    (he : Frame.error e ∈ handleAudioMessage env) : e ∈ safeMessages := by
  obtain ⟨tr, gr, wt, chunks, tf, mr⟩ := env
  cases tr with
  | error msg =>
    simp [handleAudioMessage] at he
    exact he ▸ getSafeErrorMessage_mem msg
  | ok t =>
    by_cases hf : (shouldFilter t).filtered
    · simp [handleAudioMessage, hf] at he
    · cases gr with
      | error msg =>
        simp [handleAudioMessage, hf, List.mem_append, List.mem_replicate] at he
        exact he ▸ getSafeErrorMessage_mem msg
      | ok resp =>
        obtain ⟨rt, rm⟩ := resp
        by_cases hrt : rt = ""
        · subst hrt
          cases rm with
          | none => simp [handleAudioMessage, hf] at he
          | some l =>
            cases l with
            | nil => simp [handleAudioMessage, hf] at he
            | cons u us =>
              cases mr with
              | ok d => simp [handleAudioMessage, hf] at he
              | error u => simp [handleAudioMessage, hf] at he
        · by_cases hc : cleanForSpeech rt = ""
          · simp [handleAudioMessage, hf, hrt, hc] at he
          · cases tf with
            | none => simp [handleAudioMessage, hf, hrt, hc] at he
            | some emsg =>
              simp [handleAudioMessage, hf, hrt, hc] at he
              exact he ▸ getSafeErrorMessage_mem emsg

theorem handleAudio_errors_end (env : TurnEnv) :
    errorsFollowedByEnd (handleAudioMessage env) = true := by
  obtain ⟨tr, gr, wt, chunks, tf, mr⟩ := env
  cases tr with
  | error msg => simp [handleAudioMessage, errorsFollowedByEnd]
  | ok t =>
    by_cases hf : (shouldFilter t).filtered
    · simp [handleAudioMessage, hf, errorsFollowedByEnd]
    · cases gr with
      | error msg =>
        simp [handleAudioMessage, hf, errorsFollowedByEnd,
          errorsFollowedByEnd_replicate_status]
      | ok resp =>
        obtain ⟨rt, rm⟩ := resp
        by_cases hrt : rt = ""
        · subst hrt
          cases rm with
          | none =>
            simp [handleAudioMessage, hf, errorsFollowedByEnd,
              errorsFollowedByEnd_replicate_status]
          | some l =>
            cases l with
            | nil =>
              simp [handleAudioMessage, hf, errorsFollowedByEnd,
                errorsFollowedByEnd_replicate_status]
            | cons u us =>
              cases mr with
              | ok d =>
                simp [handleAudioMessage, hf, errorsFollowedByEnd,
                  errorsFollowedByEnd_replicate_status]
              | error u =>
                simp [handleAudioMessage, hf, errorsFollowedByEnd,
                  errorsFollowedByEnd_replicate_status]
        · by_cases hc : cleanForSpeech rt = ""
          · simp [handleAudioMessage, hf, hrt, hc, errorsFollowedByEnd,
              errorsFollowedByEnd_replicate_status]
          · cases tf with
            | none =>
              simp [handleAudioMessage, hf, hrt, hc, errorsFollowedByEnd,
                errorsFollowedByEnd_replicate_status, errorsFollowedByEnd_map_audio]
            | some emsg =>
              simp [handleAudioMessage, hf, hrt, hc, errorsFollowedByEnd,
                errorsFollowedByEnd_replicate_status, errorsFollowedByEnd_map_audio]

/-! # Claim theorems -/

/-- C7: `shouldFilter` applies its checks in the order empty, then
too-short noise, then hallucination, first match winning, and on the four
concrete inputs returns filtered/`empty`, filtered/`noise`,
filtered/`hallucination` and not-filtered respectively. -/
theorem C7_shouldFilter_order :
    shouldFilter "" = ⟨true, some .empty⟩ ∧
    shouldFilter "a" = ⟨true, some .noise⟩ ∧
    shouldFilter "Thanks for watching" = ⟨true, some .hallucination⟩ ∧
    shouldFilter "What is the weather?" = ⟨false, none⟩ ∧
    (∀ s : String, jsTrim s.toList = [] →
      shouldFilter s = ⟨true, some .empty⟩) ∧
    (∀ s : String, jsTrim s.toList ≠ [] →
      isTooShort (jsTrim s.toList) = true →
      shouldFilter s = ⟨true, some .noise⟩) ∧
    (∀ s : String, jsTrim s.toList ≠ [] →
      isTooShort (jsTrim s.toList) = false →
      isHallucination (jsTrim s.toList) = true →
      shouldFilter s = ⟨true, some .hallucination⟩) := by
  refine ⟨by decide, by decide, by decide, by decide, ?_, ?_, ?_⟩
  · intro s h
    have h' : jsTrim s.data = [] := h
    simp [shouldFilter, h']
  · intro s h1 h2
    have h1' : ¬ (jsTrim s.data = []) := h1
    have h2' : isTooShort (jsTrim s.data) = true := h2
    simp [shouldFilter, h1', h2']
  · intro s h1 h2 h3
    have h1' : ¬ (jsTrim s.data = []) := h1
    have h2' : isTooShort (jsTrim s.data) = false := h2
    have h3' : isHallucination (jsTrim s.data) = true := h3
    simp [shouldFilter, h1', h2', h3']

/-- Witness for C7: the too-short branch fires on `"a!"` even though the
hallucination check never ran. -/
theorem C7_witness :
    jsTrim "a!".toList ≠ [] ∧
    isTooShort (jsTrim "a!".toList) = true ∧
    shouldFilter "a!" = ⟨true, some .noise⟩ :=
  ⟨by decide, by decide,
   C7_shouldFilter_order.2.2.2.2.2.1 "a!" (by decide) (by decide)⟩

/-- C10: a successful `auth` message is acknowledged with a
`status "transcribing"` frame — there is no dedicated auth-ack frame, so
the client observes state `transcribing` with no transcription running. -/
theorem C10_auth_ack_status_transcribing :
    ∀ cfg : ServerConfig,
      handleConnEvent cfg initConnState (.msg (.auth cfg.authToken)) =
        ({ initConnState with authed := true, authTimerActive := false },
         [Frame.status .transcribing]) := by
  intro cfg
  simp [handleConnEvent, initConnState]

/-- C6 counterexample: the cleaning pipeline is not idempotent — nested
list bullets are stripped one level per application, so on
`"- - hello"` a second application changes the result again. -/
theorem C6_cleanForSpeech_not_idempotent :
    cleanForSpeech "- - hello" = "- hello" ∧
    cleanForSpeech (cleanForSpeech "- - hello") = "hello" ∧
    cleanForSpeech (cleanForSpeech "- - hello") ≠ cleanForSpeech "- - hello" :=
  ⟨by decide, by decide, by decide⟩

/-- C6 (amended): `cleanForSpeech` is idempotent on already-clean text
(its fixed points), and on a representative markdown input one cleaning
pass reaches a fixed point. -/
theorem C6_idempotent_on_clean :
    (∀ x : String, cleanForSpeech x = x →
      cleanForSpeech (cleanForSpeech x) = cleanForSpeech x) ∧
    cleanForSpeech
        (cleanForSpeech "# Hi\n\nSee **bold**, *it*, [l](https://a.b) and |t|r|") =
      cleanForSpeech "# Hi\n\nSee **bold**, *it*, [l](https://a.b) and |t|r|" := by
  constructor
  · intro x h; rw [h]; exact h
  · decide

/-- Witness for C6: `"hello"` is already clean and stays fixed. -/
theorem C6_witness :
    cleanForSpeech "hello" = "hello" ∧
    cleanForSpeech (cleanForSpeech "hello") = cleanForSpeech "hello" :=
  ⟨by decide, C6_idempotent_on_clean.1 "hello" (by decide)⟩

/-- C5 counterexample: the emitted message can coincide with — and hence
contain — the raw provider error text: an internal error whose message is
exactly the generic fallback string is echoed verbatim, and the turn's
error frame carries it. -/
theorem C5_counterexample_raw_text :
    getSafeErrorMessage "An error occurred. Please try again." =
      "An error occurred. Please try again." ∧
    strIncludes (getSafeErrorMessage "An error occurred. Please try again.").toList
      "An error occurred. Please try again.".toList = true ∧
    handleAudioMessage
        { transcribeResult := .ok "What is the weather?",
          gatewayResult := .error "An error occurred. Please try again." } =
      [Frame.status .transcribing, Frame.transcript "What is the weather?",
       Frame.status .thinking,
       Frame.error "An error occurred. Please try again.", Frame.audioEnd] :=
  ⟨by decide, by decide, by decide⟩

/-- C5 (amended): error frames produced by the audio-turn pipeline always
carry one of the five fixed user-safe strings (the raw text influences
only which fixed string is chosen), and every error frame is immediately
followed by the stream-ended (`audio_end`) frame. -/
theorem C5_safe_error_frames :
    (∀ m : String, getSafeErrorMessage m ∈ safeMessages) ∧
    (∀ (env : TurnEnv) (e : String),
      Frame.error e ∈ handleAudioMessage env → e ∈ safeMessages) ∧
    (∀ env : TurnEnv, errorsFollowedByEnd (handleAudioMessage env) = true) :=
  ⟨getSafeErrorMessage_mem, handleAudio_errors_safe, handleAudio_errors_end⟩

/-- Witness for C5: a transcription failure yields the fixed
"Failed to process audio" string, which is in the safe set. -/
theorem C5_witness :
    Frame.error "Failed to process audio. Please try again." ∈
      handleAudioMessage
        { transcribeResult := .error "Transcription failed",
          gatewayResult := .error "x" } ∧
    "Failed to process audio. Please try again." ∈ safeMessages :=
  ⟨by decide,
   C5_safe_error_frames.2.1
     { transcribeResult := .error "Transcription failed", gatewayResult := .error "x" }
     "Failed to process audio. Please try again." (by decide)⟩

/-- C3: before authentication every non-auth message gets exactly one
error frame with the connection left open; a wrong token gets exactly one
error frame and the connection is closed; the auth timeout fires one
error frame and closes; the right token cancels the timer and marks the
connection authenticated. -/
theorem C3_auth_gate :
    ∀ (cfg : ServerConfig) (st : ConnState),
      st.authed = false →
      (∀ m : ClientMsg, isAuthMsg m = false →
        ∃ e, handleConnEvent cfg st (.msg m) = (st, [Frame.error e])) ∧
      (∀ token : String, token ≠ cfg.authToken →
        handleConnEvent cfg st (.msg (.auth token)) =
          ({ st with isOpen := false }, [Frame.error "Invalid token"])) ∧
      (st.authTimerActive = true →
        handleConnEvent cfg st .authTimerFire =
          ({ st with isOpen := false, authTimerActive := false },
           [Frame.error "Authentication timeout"])) ∧
      handleConnEvent cfg st (.msg (.auth cfg.authToken)) =
        ({ st with authed := true, authTimerActive := false },
         [Frame.status .transcribing]) := by
  intro cfg st hau
  refine ⟨?_, ?_, ?_, ?_⟩
  · intro m hm
    cases m with
    | auth tk => simp [isAuthMsg] at hm
    | malformed => exact ⟨"Failed to process message", by simp [handleConnEvent]⟩
    | audio sz env now => exact ⟨"Not authenticated", by simp [handleConnEvent, hau]⟩
    | ping => exact ⟨"Not authenticated", by simp [handleConnEvent, hau]⟩
    | ttsState b => exact ⟨"Not authenticated", by simp [handleConnEvent, hau]⟩
    | unknown => exact ⟨"Not authenticated", by simp [handleConnEvent, hau]⟩
  · intro token htk
    simp [handleConnEvent, hau, htk]
  · intro ht
    simp [handleConnEvent, hau, ht]
  · simp [handleConnEvent, hau]

/-- Witness for C3: the wrong-token path on a fresh connection. -/
theorem C3_witness :
    initConnState.authed = false ∧
    ("bad" ≠ ServerConfig.authToken ⟨"secret"⟩) ∧
    handleConnEvent ⟨"secret"⟩ initConnState (.msg (.auth "bad")) =
      ({ initConnState with isOpen := false }, [Frame.error "Invalid token"]) :=
  ⟨rfl, by decide,
   (C3_auth_gate ⟨"secret"⟩ initConnState rfl).2.1 "bad" (by decide)⟩

/-- C1 counterexample: the "in particular" instance fails — with a proxy
configured under session key `"A"`, an event carrying the distinct
session key `"agent:main:A"` matches the prefix-tolerant filter and IS
delivered to the pending request registered under `"A"`. -/
theorem C1_counterexample_prefixed_key :
    ("agent:main:A" ≠ "A") ∧
    (processChatEvent "A" initGwState [⟨0⟩]
      { sessionKey := some "agent:main:A", runId := some "r1",
        state := some "final",
        message := some { role := some "assistant",
                          content := some [{ ctype := "text", text := some "hi" }] } }).2.2 =
      [(⟨0⟩, { text := "hi", mediaUrls := none })] :=
  ⟨by decide, by decide⟩

/-- C1 (amended): an event whose embedded session key is neither the
configured key nor its `agent:main:`-prefixed form leaves both
accumulators unchanged, emits no response, and is never delivered to any
pending request — in particular an event for session `B` is never
delivered to a request registered under `A` provided `B ≠ A` and
`B ≠ "agent:main:" ++ A`. -/
theorem C1_foreign_session_isolated :
    ∀ (ck key : String) (st : GwState) (queue : List Pending)
      (pa : AgentPayload) (pc : ChatPayload),
      pa.sessionKey.getD "" = key → pc.sessionKey.getD "" = key →
      key ≠ ck → key ≠ "agent:main:" ++ ck →
      handleAgentEvent ck st pa = st ∧
      handleChatEvent ck st pc = (st, []) ∧
      processChatEvent ck st queue pc = (st, queue, []) := by
  intro ck key st queue pa pc hka hkc h1 h2
  have hm : ∀ sk : Option String, sk.getD "" = key → matchedKey ck sk = false := by
    intro sk hsk
    simp [matchedKey, expectedKeys, hsk, h1, h2]
  have ha := handleAgentEvent_foreign ck st pa (hm _ hka)
  have hc := handleChatEvent_foreign ck st pc (hm _ hkc)
  exact ⟨ha, hc, by simp [processChatEvent, hc, deliverResponses]⟩

/-- Witness for C1: key `"B"` against a client configured with `"A"`. -/
theorem C1_witness :
    ((some "B" : Option String).getD "" = "B") ∧
    ("B" ≠ "A") ∧ ("B" ≠ "agent:main:" ++ "A") ∧
    (handleAgentEvent "A" initGwState
        { sessionKey := some "B", stream := some "assistant",
          runId := some "r", text := some "x" } = initGwState ∧
     handleChatEvent "A" initGwState { sessionKey := some "B" } =
       (initGwState, []) ∧
     processChatEvent "A" initGwState [⟨0⟩] { sessionKey := some "B" } =
       (initGwState, [⟨0⟩], [])) :=
  ⟨rfl, by decide, by decide,
   C1_foreign_session_isolated "A" "B" initGwState [⟨0⟩]
     { sessionKey := some "B", stream := some "assistant",
       runId := some "r", text := some "x" }
     { sessionKey := some "B" } rfl rfl (by decide) (by decide)⟩

theorem handleAudio_shape (env : TurnEnv) :
    matchesActualShape (turnFrames (handleAudioMessage env)) = true ∧
    countAudioEnd (handleAudioMessage env) = 1 := by
  obtain ⟨tr, gr, wt, chunks, tf, mr⟩ := env
  cases tr with
  | error msg =>
    simp [handleAudioMessage, turnFrames, List.filter_cons, isTurnFrame,
      matchesActualShape, dropOptTranscript, dropOptResponse, isTranscriptFrame,
      isResponseFrame, isErrEndPair, isErrorFrame, List.dropWhile, isAudioChunk,
      countAudioEnd_cons, countAudioEnd_nil]
  | ok t =>
    by_cases hf : (shouldFilter t).filtered
    · simp [handleAudioMessage, hf, turnFrames, List.filter_cons, isTurnFrame,
        matchesActualShape, dropOptTranscript, dropOptResponse, isTranscriptFrame,
        isResponseFrame, isErrEndPair, List.dropWhile, isAudioChunk,
        countAudioEnd_cons, countAudioEnd_nil]
    · cases gr with
      | error msg =>
        simp [handleAudioMessage, hf, turnFrames, List.filter_cons,
          List.filter_append, filter_turn_replicate, isTurnFrame,
          matchesActualShape, dropOptTranscript, dropOptResponse,
          isTranscriptFrame, isResponseFrame, isErrEndPair, isErrorFrame,
          List.dropWhile, isAudioChunk, countAudioEnd_cons, countAudioEnd_nil,
          countAudioEnd_append, countAudioEnd_replicate_status]
      | ok resp =>
        obtain ⟨rt, rm⟩ := resp
        by_cases hrt : rt = ""
        · subst hrt
          cases rm with
          | none =>
            simp [handleAudioMessage, hf, turnFrames, List.filter_cons,
              List.filter_append, filter_turn_replicate, isTurnFrame,
              matchesActualShape, dropOptTranscript, dropOptResponse,
              isTranscriptFrame, isResponseFrame, isErrEndPair,
              List.dropWhile, isAudioChunk, countAudioEnd_cons,
              countAudioEnd_nil, countAudioEnd_append,
              countAudioEnd_replicate_status]
          | some l =>
            cases l with
            | nil =>
              simp [handleAudioMessage, hf, turnFrames, List.filter_cons,
                List.filter_append, filter_turn_replicate, isTurnFrame,
                matchesActualShape, dropOptTranscript, dropOptResponse,
                isTranscriptFrame, isResponseFrame, isErrEndPair,
                List.dropWhile, isAudioChunk, countAudioEnd_cons,
                countAudioEnd_nil, countAudioEnd_append,
                countAudioEnd_replicate_status]
            | cons u us =>
              cases mr with
              | ok d =>
                simp [handleAudioMessage, hf, turnFrames, List.filter_cons,
                  List.filter_append, filter_turn_replicate, isTurnFrame,
                  matchesActualShape, dropOptTranscript, dropOptResponse,
                  isTranscriptFrame, isResponseFrame, isErrEndPair,
                  List.dropWhile, isAudioChunk, countAudioEnd_cons,
                  countAudioEnd_nil, countAudioEnd_append,
                  countAudioEnd_replicate_status]
              | error u =>
                simp [handleAudioMessage, hf, turnFrames, List.filter_cons,
                  List.filter_append, filter_turn_replicate, isTurnFrame,
                  matchesActualShape, dropOptTranscript, dropOptResponse,
                  isTranscriptFrame, isResponseFrame, isErrEndPair,
                  List.dropWhile, isAudioChunk, countAudioEnd_cons,
                  countAudioEnd_nil, countAudioEnd_append,
                  countAudioEnd_replicate_status]
        · by_cases hc : cleanForSpeech rt = ""
          · simp [handleAudioMessage, hf, hrt, hc, turnFrames, List.filter_cons,
              List.filter_append, filter_turn_replicate, isTurnFrame,
              matchesActualShape, dropOptTranscript, dropOptResponse,
              isTranscriptFrame, isResponseFrame, isErrEndPair,
              List.dropWhile, isAudioChunk, countAudioEnd_cons,
              countAudioEnd_nil, countAudioEnd_append,
              countAudioEnd_replicate_status]
          · cases tf with
            | none =>
              simp [handleAudioMessage, hf, hrt, hc, turnFrames,
                List.filter_cons, List.filter_append, filter_turn_replicate,
                filter_turn_map_audio, isTurnFrame, matchesActualShape,
                dropOptTranscript, dropOptResponse, isTranscriptFrame,
                isResponseFrame, isErrEndPair, dropWhile_map_audio,
                List.dropWhile, isAudioChunk, countAudioEnd_cons,
                countAudioEnd_nil, countAudioEnd_append,
                countAudioEnd_replicate_status, countAudioEnd_map_audio]
            | some emsg =>
              simp [handleAudioMessage, hf, hrt, hc, turnFrames,
                List.filter_cons, List.filter_append, filter_turn_replicate,
                filter_turn_map_audio, isTurnFrame, matchesActualShape,
                dropOptTranscript, dropOptResponse, isTranscriptFrame,
                isResponseFrame, isErrEndPair, isErrorFrame, dropWhile_map_audio,
                List.dropWhile, isAudioChunk, countAudioEnd_cons,
                countAudioEnd_nil, countAudioEnd_append,
                countAudioEnd_replicate_status, countAudioEnd_map_audio]

/-- C2 counterexample: on a gateway failure the transcript frame has
already been emitted, so the turn's non-status frames are
`transcript, error, audio_end` — which fits neither
`transcript? response? audio* audio_end` nor `error audio_end`. -/
theorem C2_counterexample_order :
    turnFrames (audioCase none 0 0
      { transcribeResult := .ok "What is the weather?",
        gatewayResult := .error "Gateway response timeout (5 min)" }).frames =
      [Frame.transcript "What is the weather?",
       Frame.error "Request timed out. Please try again.", Frame.audioEnd] ∧
    matchesClaimedShape (turnFrames (audioCase none 0 0
      { transcribeResult := .ok "What is the weather?",
        gatewayResult := .error "Gateway response timeout (5 min)" }).frames) =
      false :=
  ⟨by decide, by decide⟩

/-- C2 (amended): within every audio turn the non-status frames are
`transcript? response? audio* (error)? audio_end` — the optional error
frame may follow already-emitted frames but is always directly followed
by the final `audio_end` — and exactly one `audio_end` is emitted on
every path (rate-limit rejection, oversized payload, transcription
failure, filtered transcript, gateway failure, TTS failure, success). -/
theorem C2_turn_shape :
    ∀ (rate : Option RateLimit) (now size : Nat) (env : TurnEnv),
      matchesActualShape (turnFrames (audioCase rate now size env).frames) = true ∧
      countAudioEnd ((audioCase rate now size env).frames) = 1 := by
  intro rate now size env
  by_cases hr : (checkRateLimit rate now).1
  · by_cases hs : size > MAX_AUDIO_SIZE
    · simp [audioCase, hr, hs, turnFrames, List.filter_cons, isTurnFrame,
        matchesActualShape, dropOptTranscript, dropOptResponse,
        isTranscriptFrame, isResponseFrame, isErrEndPair, isErrorFrame,
        List.dropWhile, isAudioChunk, countAudioEnd_cons, countAudioEnd_nil]
    · simpa [audioCase, hr, hs] using handleAudio_shape env
  · simp [audioCase, hr, turnFrames, List.filter_cons, isTurnFrame,
      matchesActualShape, dropOptTranscript, dropOptResponse,
      isTranscriptFrame, isResponseFrame, isErrEndPair, isErrorFrame,
      List.dropWhile, isAudioChunk, countAudioEnd_cons, countAudioEnd_nil]

/-- C4: starting from a fresh window, 20 audio messages inside the
60-second window are admitted; the 21st inside the window is rejected
with the rate-limit error plus the synthetic stream-ended frame, without
invoking the transcription pipeline and without consuming window state;
the first message after the window has expired passes the check and
reaches transcription. -/
theorem C4_rate_limit_window (t0 t21 tNew size : Nat) (ts : List Nat)
    (env : TurnEnv)
    (hlen : ts.length = 19)
    (hts : ∀ t ∈ ts, t ≤ t0 + RATE_LIMIT_WINDOW_MS)
    (h21 : t21 ≤ t0 + RATE_LIMIT_WINDOW_MS)
    (hNew : t0 + RATE_LIMIT_WINDOW_MS < tNew)
    (hsize : ¬ (size > MAX_AUDIO_SIZE)) :
    (runRate none (t0 :: ts)).1 = List.replicate 20 true ∧
    (audioCase (runRate none (t0 :: ts)).2 t21 size env).frames =
      [Frame.error "Rate limit exceeded. Please wait.", Frame.audioEnd] ∧
    (audioCase (runRate none (t0 :: ts)).2 t21 size env).transcribeInvoked =
      false ∧
    (audioCase (runRate none (t0 :: ts)).2 t21 size env).rate =
      (runRate none (t0 :: ts)).2 ∧
    (checkRateLimit (runRate none (t0 :: ts)).2 tNew).1 = true ∧
    (audioCase (runRate none (t0 :: ts)).2 tNew size env).transcribeInvoked =
      true := by
  have h0 : checkRateLimit none t0 =
      (true, some ⟨1, t0 + RATE_LIMIT_WINDOW_MS⟩) := by
    simp [checkRateLimit, RATE_LIMIT_REQUESTS]
  have hrest := runRate_within (t0 + RATE_LIMIT_WINDOW_MS) ts 1 hts
    (by simp [hlen, RATE_LIMIT_REQUESTS])
  have hrun : runRate none (t0 :: ts) =
      (true :: List.replicate ts.length true,
       some ⟨1 + ts.length, t0 + RATE_LIMIT_WINDOW_MS⟩) := by
    simp [runRate, h0, hrest]
  have h21' : ¬ (t21 > t0 + RATE_LIMIT_WINDOW_MS) := Nat.not_lt.mpr h21
  have hchk21 : checkRateLimit
      (some ⟨1 + ts.length, t0 + RATE_LIMIT_WINDOW_MS⟩) t21 =
      (false, some ⟨1 + ts.length, t0 + RATE_LIMIT_WINDOW_MS⟩) := by
    simp [checkRateLimit, h21', RATE_LIMIT_REQUESTS, hlen]
  have hchkNew : (checkRateLimit
      (some ⟨1 + ts.length, t0 + RATE_LIMIT_WINDOW_MS⟩) tNew).1 = true := by
    simp [checkRateLimit, hNew, RATE_LIMIT_REQUESTS]
  refine ⟨?_, ?_, ?_, ?_, ?_, ?_⟩
  · rw [hrun]; simp [hlen, List.replicate_succ]
  · rw [hrun]; simp [audioCase, hchk21]
  · rw [hrun]; simp [audioCase, hchk21]
  · rw [hrun]; simp [audioCase, hchk21]
  · rw [hrun]; exact hchkNew
  · rw [hrun]; simp [audioCase, hchkNew, hsize]

/-- Witness for C4: twenty-one messages at time 0, then one at 60001. -/
theorem C4_witness :
    ((List.replicate 19 0).length = 19 ∧
     (∀ t ∈ List.replicate 19 (0 : Nat), t ≤ 0 + RATE_LIMIT_WINDOW_MS) ∧
     (0 : Nat) ≤ 0 + RATE_LIMIT_WINDOW_MS ∧
     0 + RATE_LIMIT_WINDOW_MS < 60001 ∧
     ¬ ((0 : Nat) > MAX_AUDIO_SIZE)) ∧
    ((runRate none (0 :: List.replicate 19 0)).1 = List.replicate 20 true ∧
     (audioCase (runRate none (0 :: List.replicate 19 0)).2 0 0
        { transcribeResult := .ok "hello there",
          gatewayResult := .ok ⟨"hi", none⟩ }).frames =
       [Frame.error "Rate limit exceeded. Please wait.", Frame.audioEnd] ∧
     (audioCase (runRate none (0 :: List.replicate 19 0)).2 0 0
        { transcribeResult := .ok "hello there",
          gatewayResult := .ok ⟨"hi", none⟩ }).transcribeInvoked = false ∧
     (audioCase (runRate none (0 :: List.replicate 19 0)).2 0 0
        { transcribeResult := .ok "hello there",
          gatewayResult := .ok ⟨"hi", none⟩ }).rate =
       (runRate none (0 :: List.replicate 19 0)).2 ∧
     (checkRateLimit (runRate none (0 :: List.replicate 19 0)).2 60001).1 =
       true ∧
     (audioCase (runRate none (0 :: List.replicate 19 0)).2 60001 0
        { transcribeResult := .ok "hello there",
          gatewayResult := .ok ⟨"hi", none⟩ }).transcribeInvoked = true) :=
  ⟨⟨by decide, by decide, by decide, by decide, by decide⟩,
   C4_rate_limit_window 0 0 60001 0 (List.replicate 19 0)
     { transcribeResult := .ok "hello there", gatewayResult := .ok ⟨"hi", none⟩ }
     (by decide) (by decide) (by decide) (by decide) (by decide)⟩

/-- C8: closing a connection removes its pending requests from the
shared queue and cancels its keepalive/auth timers; afterwards a gateway
response is never delivered to the closed connection — if only that
connection's requests were queued it is silently dropped — and
`sendMessage` emits nothing to the closed socket. -/
theorem C8_close_cleanup :
    ∀ (st : ProcState) (c : Nat) (r : GatewayResponse) (f : Frame),
      (∀ p ∈ (closeConn st c).pendingRequests, p.conn ≠ c) ∧
      (closeConn st c).keepaliveConns.contains c = false ∧
      (closeConn st c).authTimerConns.contains c = false ∧
      (∀ d, (deliverOne (closeConn st c) r).2 = some d → d.1 ≠ c) ∧
      ((∀ p ∈ st.pendingRequests, p.conn = c) →
        (deliverOne (closeConn st c) r).2 = none) ∧
      sendMessageTo (closeConn st c) c f = none := by
  intro st c r f
  refine ⟨?_, ?_, ?_, ?_, ?_, ?_⟩
  · intro p hp
    have := List.of_mem_filter hp
    simpa using this
  · simp [closeConn]
  · simp [closeConn]
  · intro d hd
    unfold deliverOne at hd
    rcases hq : (closeConn st c).pendingRequests with _ | ⟨p, rest⟩
    · simp [hq] at hd
    · simp [hq] at hd
      have hp : p ∈ (closeConn st c).pendingRequests := by simp [hq]
      have := List.of_mem_filter hp
      have hpc : p.conn ≠ c := by simpa using this
      rw [← hd]
      simpa using hpc
  · intro hall
    have : (closeConn st c).pendingRequests = [] := by
      simp only [closeConn]
      rw [List.filter_eq_nil_iff]
      intro p hp
      simp [hall p hp]
    simp [deliverOne, this]
  · simp [sendMessageTo, closeConn]

theorem agentMediaStep_responseBuffer (runId : String) (st : GwState)
    (mu : Option (List String)) :
    (agentMediaStep runId st mu).responseBuffer = st.responseBuffer := by
  cases mu with
  | none => rfl
  | some urls =>
    simp only [agentMediaStep]
    split
    · split <;> rfl
    · rfl

theorem agentTextStep_mget (rid k : String) (st : GwState) (txt : Option String) :
    mget (agentTextStep rid st txt).responseBuffer k =
      (if k = rid then
        stepText (mget st.responseBuffer k) (truthyText txt)
       else mget st.responseBuffer k) := by
  cases txt with
  | none => by_cases hk : k = rid <;> simp [agentTextStep, stepText, truthyText, hk]
  | some t =>
    by_cases ht : t = ""
    · by_cases hk : k = rid <;>
        simp [agentTextStep, stepText, truthyText, ht, hk]
    · by_cases hk : k = rid
      · subst hk
        by_cases hlt : ((mget st.responseBuffer k).getD "").length < t.length
        · simp [agentTextStep, stepText, truthyText, updLongest, ht, hlt,
            mget_mset_self]
        · simp [agentTextStep, stepText, truthyText, updLongest, ht, hlt]
      · by_cases hlt : ((mget st.responseBuffer rid).getD "").length < t.length
        · simp [agentTextStep, stepText, truthyText, ht, hlt, hk,
            mget_mset_ne _ _ _ _ hk]
        · simp [agentTextStep, stepText, truthyText, ht, hlt, hk]

theorem procEvent_buffer_step (ck runId : String) (st : GwState) (e : GwEvent)
    (hnf : nonFinal e = true) :
    mget (procEvent ck st e).1.responseBuffer runId =
      stepText (mget st.responseBuffer runId) (eventText ck runId e) := by
  cases e with
  | agent p =>
    by_cases hk : matchedKey ck p.sessionKey
    · by_cases hs : p.stream = some "assistant"
      · have hunf : handleAgentEvent ck st p =
            agentMediaStep (effectiveRunId p.runId)
              (agentTextStep (effectiveRunId p.runId) st p.text) p.mediaUrls := by
          simp [handleAgentEvent, hk, hs]
        by_cases hrid : effectiveRunId p.runId = runId
        · simp [procEvent, hunf, agentMediaStep_responseBuffer,
            agentTextStep_mget, hrid, eventText, hk, hs]
        · have hrid' : ¬ (runId = effectiveRunId p.runId) :=
            fun hh => hrid hh.symm
          simp [procEvent, hunf, agentMediaStep_responseBuffer,
            agentTextStep_mget, hrid', eventText, hk, hs, hrid, stepText]
      · have : handleAgentEvent ck st p = st := by
          simp [handleAgentEvent, hk, hs]
        simp [procEvent, this, eventText, hk, hs, stepText]
    · simp [procEvent, handleAgentEvent_foreign ck st p (by simpa using hk),
        eventText, hk, stepText]
  | chat p =>
    have hstate : p.state ≠ some "final" := by
      simpa [nonFinal] using hnf
    by_cases hk : matchedKey ck p.sessionKey
    · rcases hmsg : p.message with _ | msg
      · simp [procEvent, handleChatEvent, hk, hmsg, hstate, eventText,
          chatFullText, stepText]
      · by_cases hrole : msg.role = some "assistant"
        · rcases hcont : msg.content with _ | content
          · simp [procEvent, handleChatEvent, hk, hmsg, hrole, hcont, hstate,
              eventText, chatFullText, stepText]
          · by_cases hparts : (chatTextParts content).isEmpty
            · simp [procEvent, handleChatEvent, hk, hmsg, hrole, hcont, hparts,
                hstate, eventText, chatFullText, stepText]
            · by_cases hrid : effectiveRunId p.runId = runId
              · by_cases hlt :
                    ((mget st.responseBuffer runId).getD
                      "").length < (String.join (chatTextParts content)).length
                · simp [procEvent, handleChatEvent, hk, hmsg, hrole, hcont,
                    hparts, hstate, hrid, hlt, eventText, chatFullText,
                    stepText, updLongest, mget_mset_self]
                · simp [procEvent, handleChatEvent, hk, hmsg, hrole, hcont,
                    hparts, hstate, hrid, hlt, eventText, chatFullText,
                    stepText, updLongest]
              · have hrid' : ¬ (runId = effectiveRunId p.runId) :=
                  fun hh => hrid hh.symm
                by_cases hlt :
                    ((mget st.responseBuffer (effectiveRunId p.runId)).getD
                      "").length < (String.join (chatTextParts content)).length
                · simp [procEvent, handleChatEvent, hk, hmsg, hrole, hcont,
                    hparts, hstate, hrid, hlt, eventText, chatFullText,
                    stepText, mget_mset_ne _ _ _ _ hrid']
                · simp [procEvent, handleChatEvent, hk, hmsg, hrole, hcont,
                    hparts, hstate, hrid, hlt, eventText, chatFullText, stepText]
        · simp [procEvent, handleChatEvent, hk, hmsg, hrole, hstate, eventText,
            chatFullText, stepText]
    · simp [procEvent, handleChatEvent_foreign ck st p (by simpa using hk),
        eventText, hk, stepText]

theorem procEvents_buffer (ck runId : String) :
    ∀ (evts : List GwEvent) (st : GwState),
      (∀ e ∈ evts, nonFinal e = true) →
      mget (procEvents ck st evts).1.responseBuffer runId =
        (textsOf ck runId evts).foldl updLongest (mget st.responseBuffer runId) := by
  intro evts
  induction evts with
  | nil => intro st _; simp [procEvents, textsOf]
  | cons e es ih =>
    intro st hnf
    have he := hnf e (by simp)
    have hes : ∀ x ∈ es, nonFinal x = true := fun x hx => hnf x (by simp [hx])
    have hstep := procEvent_buffer_step ck runId st e he
    rcases ht : eventText ck runId e with _ | t <;>
      simp [procEvents, textsOf, List.filterMap_cons, ht, ih _ hes,
        hstep, stepText]

theorem foldl_updLongest_olen :
    ∀ (ts : List String) (cur : Option String),
      ((cur.getD "").length ≤ ((ts.foldl updLongest cur).getD "").length) ∧
      ∀ t ∈ ts, t.length ≤ ((ts.foldl updLongest cur).getD "").length := by
  intro ts
  induction ts with
  | nil => intro cur; simp
  | cons t ts ih =>
    intro cur
    have h1 := ih (updLongest cur t)
    have hup1 : (cur.getD "").length ≤ ((updLongest cur t).getD "").length := by
      by_cases hlt : (cur.getD "").length < t.length
      · simp [updLongest, hlt]
        omega
      · simp [updLongest, hlt]
    have hup2 : t.length ≤ ((updLongest cur t).getD "").length := by
      by_cases hlt : (cur.getD "").length < t.length
      · simp [updLongest, hlt]
      · simp [updLongest, hlt]
        omega
    refine ⟨le_trans hup1 h1.1, ?_⟩
    intro x hx
    rcases List.mem_cons.mp hx with hx | hx
    · subst hx; exact le_trans hup2 h1.1
    · exact h1.2 x hx

theorem foldl_updLongest_mem :
    ∀ (ts : List String) (cur : Option String) (v : String),
      ts.foldl updLongest cur = some v → cur = some v ∨ v ∈ ts := by
  intro ts
  induction ts with
  | nil => intro cur v h; exact Or.inl h
  | cons t ts ih =>
    intro cur v h
    rcases ih (updLongest cur t) v h with h' | h'
    · by_cases hlt : (cur.getD "").length < t.length
      · simp [updLongest, hlt] at h'
        exact Or.inr (by simp [h'])
      · simp [updLongest, hlt] at h'
        exact Or.inl h'
    · exact Or.inr (by simp [h'])

theorem procEvent_foreign (ck : String) (st : GwState) (e : GwEvent)
    (h : matchedKey ck (sessionKeyOf e) = false) :
    procEvent ck st e = (st, []) := by
  cases e with
  | agent p =>
    simp [procEvent, handleAgentEvent_foreign ck st p (by simpa [sessionKeyOf] using h)]
  | chat p =>
    simp [procEvent, handleChatEvent_foreign ck st p (by simpa [sessionKeyOf] using h)]

/-- C9: over any sequence of streamed (non-final) events, the response
accumulator entry for a run id is exactly a longest text contributed so
far for that run (and present only if some text was contributed); an
entry is only ever replaced by a strictly longer text; and events whose
session key does not match never touch the state at all. -/
theorem C9_accumulator_longest :
    ∀ (ck runId : String) (evts : List GwEvent),
      (∀ e ∈ evts, nonFinal e = true) →
      (∀ v : String,
        mget (procEvents ck initGwState evts).1.responseBuffer runId = some v →
        v ∈ textsOf ck runId evts ∧
        ∀ t ∈ textsOf ck runId evts, t.length ≤ v.length) ∧
      (textsOf ck runId evts = [] →
        mget (procEvents ck initGwState evts).1.responseBuffer runId = none) ∧
      (∀ (st : GwState) (e : GwEvent) (v : String), nonFinal e = true →
        mget st.responseBuffer runId = some v →
        mget (procEvent ck st e).1.responseBuffer runId = some v ∨
        ∃ t, mget (procEvent ck st e).1.responseBuffer runId = some t ∧
             v.length < t.length) ∧
      (∀ (st : GwState) (e : GwEvent),
        matchedKey ck (sessionKeyOf e) = false → procEvent ck st e = (st, [])) := by
  intro ck runId evts hnf
  have hbuf := procEvents_buffer ck runId evts initGwState hnf
  have hinit : mget initGwState.responseBuffer runId = none := rfl
  rw [hinit] at hbuf
  refine ⟨?_, ?_, ?_, ?_⟩
  · intro v hv
    rw [hbuf] at hv
    constructor
    · rcases foldl_updLongest_mem _ _ _ hv with h | h
      · cases h
      · exact h
    · intro t ht
      have := (foldl_updLongest_olen (textsOf ck runId evts) none).2 t ht
      rw [hv] at this
      simpa using this
  · intro hempty
    rw [hbuf, hempty]
    rfl
  · intro st e v hnfe hv
    have hstep := procEvent_buffer_step ck runId st e hnfe
    rcases ht : eventText ck runId e with _ | t
    · left; rw [hstep, ht, hv]; rfl
    · rw [hstep, ht, hv]
      by_cases hlt : v.length < t.length
      · right
        exact ⟨t, by simp [stepText, updLongest, hlt], hlt⟩
      · left
        simp [stepText, updLongest, hlt]
  · intro st e h
    exact procEvent_foreign ck st e h

/-- Witness for C9: an agent event then a longer chat delta for the same
run leave the accumulator holding the longer text. -/
theorem C9_witness :
    (∀ e ∈ [sampleAgentEv, sampleChatEv], nonFinal e = true) ∧
    (∀ v : String,
      mget (procEvents "A" initGwState
          [sampleAgentEv, sampleChatEv]).1.responseBuffer "r" = some v →
      v ∈ textsOf "A" "r" [sampleAgentEv, sampleChatEv] ∧
      ∀ t ∈ textsOf "A" "r" [sampleAgentEv, sampleChatEv],
        t.length ≤ v.length) :=
  ⟨by decide,
   (C9_accumulator_longest "A" "r" [sampleAgentEv, sampleChatEv] (by decide)).1⟩

/-- Witness for C8: two pending requests, both owned by connection 1,
which then closes; the late response is dropped. -/
theorem C8_witness :
    (∀ p ∈ [Pending.mk 1, Pending.mk 1], p.conn = 1) ∧
    (deliverOne (closeConn
        { pendingRequests := [Pending.mk 1, Pending.mk 1],
          keepaliveConns := [1], authTimerConns := [1], openConns := [2] } 1)
        { text := "late", mediaUrls := none }).2 = none :=
  ⟨by decide,
   (C8_close_cleanup
      { pendingRequests := [Pending.mk 1, Pending.mk 1],
        keepaliveConns := [1], authTimerConns := [1], openConns := [2] }
      1 { text := "late", mediaUrls := none } Frame.audioEnd).2.2.2.2.1
    (by decide)⟩

end OpenClaw
